import Mathlib

/-!
# Verification of the attila_https plugin core

A shallow embedding of `attila_https/__init__.py`: the `HTTPSConnector` /
`https_connection` pair that exposes a remote HTTPS endpoint through a
file-system-connection abstraction. Pure functions of the source are
translated to Lean functions; the network is modelled as an oracle
(`Net`), mapping a method and URL to a response, so that every remote
operation is a deterministic function of that oracle. Python exceptions
are modelled with `Except` over the error taxonomy of the design
(`MalformedURLError`, `UnsupportedOperationError`, `RemoteOperationError`,
misuse assertions).

External collaborators (the `attila` framework, `requests`, CPython's
`urllib.parse`, `os.path`) are embedded to the extent the plugin observes
them: `urlparse`/`urlsplit` follow CPython's algorithm (scheme detection,
netloc/fragment/query/params splitting, the IPv6-bracket check);
`os.path.basename`/`dirname` follow the POSIX implementation;
`fs_connection.check_path` is the identity on path strings (the framework
only normalises `Path` values to their strings here).
-/

namespace AttilaHttps

/-- The error taxonomy of the design (spec §7), with the constructors the
embedded operations actually produce. `assertionFailed` models Python
`assert` precondition violations (misuse assertions); `malformedUrl` the
parse-time assertion failures of `load_url` (the spec's
`MalformedURLError`); `operationNotSupported` the attila
`OperationNotSupportedError` (the spec's `UnsupportedOperationError`);
`remoteOperation` the `requests` status failure raised by
`raise_for_status` (the spec's `RemoteOperationError`), carrying the
status code; `valueError` CPython `ValueError` (bad port, invalid IPv6
URL); `fileNotFound` a missing local file on upload. -/
inductive FsError where
  | assertionFailed : FsError
  | malformedUrl : FsError
  | operationNotSupported : FsError
  | remoteOperation (status : Nat) : FsError
  | valueError : FsError
  | fileNotFound : FsError
deriving DecidableEq, Repr

/-! ## Character-list utilities

The Python string operations the source uses, written over `List Char`
with structural recursion so that every concrete instance evaluates by
`rfl`/`decide`. -/

/-- Split a list at the first element satisfying `p`: returns the part
before it and the part after it (the matching element is dropped), or
`none` when no element matches. Models Python `str.split(sep, 1)` and
`str.find`. -/
def splitFirst (p : Char → Bool) : List Char → Option (List Char × List Char)
  | [] => none
  | c :: rest =>
    if p c then some ([], rest)
    else match splitFirst p rest with
      | some (a, b) => some (c :: a, b)
      | none => none

/-- Split a list at every occurrence of `c`, like Python `str.split(c)`:
the empty list yields `[[]]` (Python `''.split(c) == ['']`). -/
def splitAll (c : Char) : List Char → List (List Char)
  | [] => [[]]
  | x :: rest =>
    match splitAll c rest with
    | h :: t => if x = c then [] :: h :: t else (x :: h) :: t
    | [] => [[x]]

/-- ASCII lower-casing of one character, as CPython `str.lower` acts on
the ASCII range (the only range the source feeds it: URL schemes and file
modes). Defined via `Char.ofNatAux` so that it reduces definitionally. -/
def pyLowerChar (c : Char) : Char :=
  if h : 65 ≤ c.toNat ∧ c.toNat ≤ 90 then
    Char.ofNatAux (c.toNat + 32) (Or.inl (by omega))
  else c

/-- Python `str.lower` on ASCII strings. -/
def pyLower (s : String) : String := ⟨s.data.map pyLowerChar⟩

/-- Decimal digits to a natural number, most significant first. -/
def digitsToNat : List Char → Nat → Nat
  | [], acc => acc
  | d :: ds, acc => digitsToNat ds (acc * 10 + (d.toNat - 48))

/-- Python `int(s)` on the decimal strings produced and consumed here:
an optional sign followed by a non-empty digit run; anything else is a
`ValueError`. (Whitespace/underscore forms are never produced by the
source.) -/
def pyInt (s : String) : Except FsError Int :=
  match s.data with
  | '-' :: ds =>
    if ds ≠ [] ∧ ds.all Char.isDigit then .ok (-(digitsToNat ds 0 : Int)) else .error .valueError
  | '+' :: ds =>
    if ds ≠ [] ∧ ds.all Char.isDigit then .ok (digitsToNat ds 0 : Int) else .error .valueError
  | ds =>
    if ds ≠ [] ∧ ds.all Char.isDigit then .ok (digitsToNat ds 0 : Int) else .error .valueError

/-- Whether the substring `://` occurs, as tested by
`if '://' not in url` in `load_url`. -/
def hasSchemeSep : List Char → Bool
  | ':' :: '/' :: '/' :: _ => true
  | _ :: rest => hasSchemeSep rest
  | [] => false

/-- Python `'/'.join(parts)`. -/
def joinWithSlash : List (List Char) → List Char
  | [] => []
  | [x] => x
  | x :: y :: rest => x ++ '/' :: joinWithSlash (y :: rest)

/-- A slash in the sense of `str.strip('/\\')`: forward or backward. -/
def isSlashChar (c : Char) : Bool := c = '/' || c = '\\'

/-- Python `s.strip('/\\')`: drop leading and trailing slash characters
(both kinds), as done per segment by `https_connection.join`. -/
def stripSlashes (s : String) : String :=
  ⟨((s.data.dropWhile isSlashChar).reverse.dropWhile isSlashChar).reverse⟩

/-- POSIX `os.path.basename` on character lists: everything after the
last `/`. -/
def basenameChars (s : List Char) : List Char :=
  match splitFirst (fun c => c = '/') s.reverse with
  | some (revBase, _) => revBase.reverse
  | none => s

/-- POSIX `os.path.dirname` on character lists: everything up to and
including the last `/`, then trailing slashes stripped unless the head is
all slashes; no slash at all gives the empty head. -/
def dirnameChars (s : List Char) : List Char :=
  match splitFirst (fun c => c = '/') s.reverse with
  | none => []
  | some (_, revPre) =>
    let head := ('/' :: revPre).reverse
    if head.all (fun c => c = '/') then head
    else (head.reverse.dropWhile (fun c => c = '/')).reverse

/-- Model of `os.path.basename` (POSIX) on strings. -/
def posixBasename (s : String) : String := ⟨basenameChars s.data⟩

/-- Model of `os.path.dirname` (POSIX) on strings. -/
def posixDirname (s : String) : String := ⟨dirnameChars s.data⟩

/-! ## CPython `urllib.parse.urlparse`, as observed by the source -/

/-- The characters allowed in a URL scheme (`urllib.parse.scheme_chars`). -/
def schemeChar (c : Char) : Bool :=
  c.isAlpha || c.isDigit || c = '+' || c = '-' || c = '.'

/-- Model of `urlsplit`'s scheme detection: a `:` at position `i > 0` preceded by
an ASCII letter and scheme characters only splits off a lower-cased
scheme; otherwise the URL is untouched and the scheme is empty. -/
def splitScheme (url : List Char) : List Char × List Char :=
  match splitFirst (fun c => c = ':') url with
  | some (b :: bs, after) =>
    if b.isAlpha && (b :: bs).all schemeChar then ((b :: bs).map pyLowerChar, after)
    else ([], url)
  | _ => ([], url)

/-- Model of `urlsplit`'s netloc extraction: after a leading `//`, the netloc runs
up to the first `/`, `?` or `#`; a netloc with an unbalanced `[`/`]`
raises `ValueError("Invalid IPv6 URL")`. Without a leading `//` the
netloc is empty. -/
def splitNetloc (url : List Char) : Except FsError (List Char × List Char) :=
  match url with
  | '/' :: '/' :: rest =>
    let nl := rest.takeWhile fun c => !(c = '/' || c = '?' || c = '#')
    let remainder := rest.dropWhile fun c => !(c = '/' || c = '?' || c = '#')
    if (nl.contains '[' && !nl.contains ']') || (nl.contains ']' && !nl.contains '[') then
      .error .valueError
    else .ok (nl, remainder)
  | _ => .ok ([], url)

/-- Split off the fragment at the first `#` (`url.split('#', 1)`). -/
def splitHash (url : List Char) : List Char × List Char :=
  match splitFirst (fun c => c = '#') url with
  | some (a, b) => (a, b)
  | none => (url, [])

/-- Split off the query at the first `?` (`url.split('?', 1)`). -/
def splitQuery (url : List Char) : List Char × List Char :=
  match splitFirst (fun c => c = '?') url with
  | some (a, b) => (a, b)
  | none => (url, [])

/-- The five components computed by `urlsplit`. -/
structure SplitRec where
  scheme : List Char
  netloc : List Char
  path : List Char
  query : List Char
  fragment : List Char
deriving DecidableEq, Repr

/-- CPython `urllib.parse.urlsplit` (default `allow_fragments=True`):
scheme, then netloc, then fragment at the first `#`, then query at the
first `?`. -/
def urlsplitChars (url : List Char) : Except FsError SplitRec :=
  match splitNetloc (splitScheme url).2 with
  | .error e => .error e
  | .ok nr =>
    .ok ⟨(splitScheme url).1, nr.1,
         (splitQuery (splitHash nr.2).1).1,
         (splitQuery (splitHash nr.2).1).2,
         (splitHash nr.2).2⟩

/-- The schemes for which `urlparse` splits `;params` off the path
(`urllib.parse.uses_params`, which contains the empty scheme). -/
def usesParams : List String :=
  ["", "ftp", "hdl", "prospero", "http", "imap", "https", "shttp", "rtsp",
   "rtspu", "sip", "sips", "mms", "sftp", "tel"]

/-- Split a path at its last `/`: the prefix including that slash, and
the final segment. No slash gives an empty prefix. -/
def splitAtLastSlash (s : List Char) : List Char × List Char :=
  match splitFirst (fun c => c = '/') s.reverse with
  | some (revSeg, revPre) => (('/' :: revPre).reverse, revSeg.reverse)
  | none => ([], s)

/-- Model of `urllib.parse._splitparams`: when the path contains a `/`, params
are split at the first `;` of the final segment only (none if that
segment has no `;`); otherwise at the first `;` of the whole path. -/
def splitParams (path : List Char) : List Char × List Char :=
  if path.contains '/' then
    match splitFirst (fun c => c = ';') (splitAtLastSlash path).2 with
    | some (a, b) => ((splitAtLastSlash path).1 ++ a, b)
    | none => (path, [])
  else
    match splitFirst (fun c => c = ';') path with
    | some (a, b) => (a, b)
    | none => (path, [])

/-- The params step of `urlparse`: applied only for schemes in
`uses_params` and paths containing `;`. -/
def pathParams (scheme path : List Char) : List Char × List Char :=
  if usesParams.contains ⟨scheme⟩ && path.contains ';' then splitParams path
  else (path, [])

/-- The six components returned by `urlparse`. -/
structure UrlParts where
  scheme : String
  netloc : String
  path : String
  params : String
  query : String
  fragment : String
deriving DecidableEq, Repr

/-- CPython `urllib.parse.urlparse`: `urlsplit` plus the params split. -/
def urlparse (url : String) : Except FsError UrlParts :=
  match urlsplitChars url.data with
  | .error e => .error e
  | .ok s =>
    .ok ⟨⟨s.scheme⟩, ⟨s.netloc⟩, ⟨(pathParams s.scheme s.path).1⟩,
         ⟨(pathParams s.scheme s.path).2⟩, ⟨s.query⟩, ⟨s.fragment⟩⟩

/-! ## Data model -/

/-- Constant `DEFAULT_HTTPS_PORT = 443`. -/
def DEFAULT_HTTPS_PORT : Int := 443

/-- The endpoint data of `HTTPSConnector`: the remote server and port
(`self._server`, `self._port`). -/
structure Connector where
  server : String
  port : Int
deriving DecidableEq, Repr

/-- The state of an `https_connection`: its connector and the `_is_open`
flag. (`open`/`close` perform no network I/O; the flag is pure
client-side bookkeeping.) -/
structure Conn where
  connector : Connector
  isOpen : Bool
deriving DecidableEq, Repr

/-- An attila `Path`: a path string bound to an owning connection. -/
structure PathV where
  pstr : String
  conn : Conn
deriving DecidableEq, Repr

/-- An HTTP method issued by the plugin. -/
inductive Method where
  | get : Method
  | put : Method
  | delete : Method
deriving DecidableEq, Repr

/-- An HTTP response: status code and body bytes. -/
structure Response where
  status : Nat
  body : List Nat
deriving DecidableEq, Repr

/-- The network oracle: what the remote server answers to each request.
Every remote operation is a deterministic function of this oracle. -/
def Net : Type := Method → String → Response

/-- The local file system oracle used by the upload routine: the content
of each local file, if it exists. -/
def LocalFs : Type := String → Option (List Nat)

/-- In `requests`, `raise_for_status` raises exactly for status codes in
`[400, 600)`. -/
def httpErrorStatus (s : Nat) : Bool := decide (400 ≤ s) && decide (s < 600)

/-- Model of `response.ok`: true iff `raise_for_status` would not raise. -/
def responseOk (r : Response) : Bool := !httpErrorStatus r.status

/-! ## `https_connection` operations -/

/-- Model of `https_connection._get_url`: the URL of a remote path, eliding the
`:port` part exactly when the port is `DEFAULT_HTTPS_PORT`. -/
def get_url (c : Connector) (path : String) : String :=
  if c.port = DEFAULT_HTTPS_PORT then
    "https://" ++ c.server ++ path
  else
    "https://" ++ c.server ++ ":" ++ toString c.port ++ path

/-- Model of `https_connection.close`: warn (second component) when the
connection is already closed, and set `_is_open` to `False`
unconditionally. Being a total function into a pair, it never raises. -/
def close (conn : Conn) : Conn × List String :=
  ({ conn with isOpen := false },
   if conn.isOpen then [] else ["Double-closing HTTPS connection."])

/-- Model of `https_connection.name`: `os.path.basename(urlparse(path)[2])` —
the final segment of the parse-extracted path component.
(`check_path` is the identity on path strings; a `ValueError` from
`urlparse` propagates.) -/
def name (_conn : Conn) (path : String) : Except FsError String :=
  match urlparse path with
  | .error e => .error e
  | .ok r => .ok (posixBasename r.path)

/-- The dirname step of `dir`, applied to the parse-extracted path
component: `None` when the dirname equals the component itself. -/
def dir_of_path (conn : Conn) (rpath : String) : Except FsError (Option PathV) :=
  if posixDirname rpath = rpath then .ok none
  else .ok (some ⟨posixDirname rpath, conn⟩)

/-- Model of `https_connection.dir`: `os.path.dirname` of the parse-extracted
path component, as a `Path` bound to this connection; `None` when the
dirname equals that component. -/
def dir (conn : Conn) (path : String) : Except FsError (Option PathV) :=
  match urlparse path with
  | .error e => .error e
  | .ok r => dir_of_path conn r.path

/-- Model of `https_connection._download`: asserts the connection is open, issues
`GET` on `_get_url(remote_path)`, raises for a failure status, and
returns the bytes written to the local file. -/
def download (net : Net) (conn : Conn) (remotePath : String) : Except FsError (List Nat) :=
  if conn.isOpen then
    let r := net Method.get (get_url conn.connector remotePath)
    if httpErrorStatus r.status then .error (.remoteOperation r.status)
    else .ok r.body
  else .error .assertionFailed

/-- Model of `https_connection._upload`: asserts the connection is open, opens
the local file for binary read, and issues the `PUT`. Note the source
passes `remote_path` itself to `requests.put` — it does not call
`_get_url` — so the request target is the bare remote path. -/
def upload (net : Net) (lfs : LocalFs) (conn : Conn) (localPath remotePath : String) :
    Except FsError Unit :=
  if conn.isOpen then
    match lfs localPath with
    | none => .error .fileNotFound
    | some _content =>
      let r := net Method.put remotePath
      if httpErrorStatus r.status then .error (.remoteOperation r.status)
      else .ok ()
  else .error .assertionFailed

/-- The URL `_upload` actually targets for a given remote path: the
`url` argument the source hands to `requests.put`. -/
def uploadPutTarget (_conn : Conn) (remotePath : String) : String := remotePath

/-- What `open_file` returns, as far as the plugin determines it: the
remote path and normalized mode handed to `ProxyFile`, the content
downloaded into the temp file (`none` when no download was performed),
and whether the connection's upload routine was attached as the
write-back. -/
structure ProxyFileSpec where
  remotePath : String
  mode : String
  tempContent : Option (List Nat)
  hasWriteback : Bool
deriving DecidableEq, Repr

/-- Model of `https_connection.open_file`: asserts the connection is open,
lower-cases the mode, allocates a temp file named from `self.name(path)`
(whose parse errors propagate), downloads into it unless the mode is
exactly `w`/`wb`, and attaches `self._upload` as the write-back unless
the mode is `r`/`rb`. -/
def open_file (net : Net) (conn : Conn) (path : String) (mode : String) :
    Except FsError ProxyFileSpec :=
  if conn.isOpen then
    match name conn path with
    | .error e => .error e
    | .ok _tempHint =>
      if pyLower mode = "w" ∨ pyLower mode = "wb" then
        .ok ⟨path, pyLower mode, none,
             if pyLower mode = "r" ∨ pyLower mode = "rb" then false else true⟩
      else
        match download net conn path with
        | .error e => .error e
        | .ok body =>
          .ok ⟨path, pyLower mode, some body,
               if pyLower mode = "r" ∨ pyLower mode = "rb" then false else true⟩
  else .error .assertionFailed

/-- Model of `https_connection.list`: unconditionally `OperationNotSupportedError`. -/
def list (_conn : Conn) (_path _pat : String) : Except FsError (List String) :=
  .error .operationNotSupported

/-- Model of `https_connection.size`: unconditionally `OperationNotSupportedError`. -/
def size (_conn : Conn) (_path : String) : Except FsError Nat :=
  .error .operationNotSupported

/-- Model of `https_connection.modified_time`: unconditionally
`OperationNotSupportedError`. -/
def modified_time (_conn : Conn) (_path : String) : Except FsError Int :=
  .error .operationNotSupported

/-- Model of `https_connection.make_dir` (its option flags do not influence the
outcome): unconditionally `OperationNotSupportedError`. -/
def make_dir (_conn : Conn) (_path : String) : Except FsError Unit :=
  .error .operationNotSupported

/-- Model of `https_connection.rename`: unconditionally
`OperationNotSupportedError`. -/
def rename (_conn : Conn) (_path _newName : String) : Except FsError Unit :=
  .error .operationNotSupported

/-- Model of `https_connection.is_dir`: always `False`. -/
def is_dir (_conn : Conn) (_path : String) : Bool := false

/-- Model of `https_connection.is_file`: issues the `GET` and returns
`response.ok`; no `is_open` assertion appears in the source. -/
def is_file (net : Net) (conn : Conn) (path : String) : Except FsError Bool :=
  .ok (responseOk (net Method.get (get_url conn.connector path)))

/-- Model of `https_connection.remove`: asserts the connection is open; `is_dir`
is always false, so it issues `DELETE` on `_get_url(path)` and raises
for a failure status. -/
def remove (net : Net) (conn : Conn) (path : String) : Except FsError Unit :=
  if conn.isOpen then
    if is_dir conn path then .error .operationNotSupported
    else
      let r := net Method.delete (get_url conn.connector path)
      if httpErrorStatus r.status then .error (.remoteOperation r.status)
      else .ok ()
  else .error .assertionFailed

/-- Model of `https_connection.join`: zero elements give the empty `Path` bound
to this connection; otherwise each element (via `check_path`, the
identity on strings) is stripped of leading/trailing slash characters,
an empty element is prepended when the first element started with `/`,
and the results are joined with `/`. -/
def join (conn : Conn) (elems : List String) : PathV :=
  match elems with
  | [] => ⟨"", conn⟩
  | e :: rest =>
    let startingSlash :=
      match e.data with
      | '/' :: _ => true
      | _ => false
    let stripped := (e :: rest).map stripSlashes
    let parts := if startingSlash then "" :: stripped else stripped
    ⟨⟨joinWithSlash (parts.map String.data)⟩, conn⟩

/-! ## `HTTPSConnector.load_url` -/

/-- The URL `load_url` actually parses: the input, prefixed with
`https://` when it contains no `://`. -/
def effectiveUrl (url : String) : String :=
  if hasSchemeSep url.data then url else "https://" ++ url

/-- Modelled from the spec: attila's `strings.split_port` (an external
collaborator not in this repository) splits `host[:port]` into the host
and the port, applying the default when no port is present (spec §4.2).
A non-integer port is a `ValueError`. -/
def splitPort (s : String) (dflt : Int) : Except FsError (String × Int) :=
  match splitAll ':' s.data with
  | [h] => .ok (⟨h⟩, dflt)
  | [h, p] =>
    match pyInt ⟨p⟩ with
    | .ok n => .ok (⟨h⟩, n)
    | .error e => .error e
  | _ => .error .valueError

/-- Model of `HTTPSConnector.__init__` on a `server` string: requires it
non-empty and splits it via `strings.split_port` with the default HTTPS
port. -/
def mkConnector (serverPort : String) : Except FsError Connector :=
  if serverPort = "" then .error .assertionFailed
  else
    match splitPort serverPort DEFAULT_HTTPS_PORT with
    | .ok hp => .ok ⟨hp.1, hp.2⟩
    | .error e => .error e

/-- Model of `HTTPSConnector.load_url`: prefix `https://` when `://` is absent;
parse; assert no params and no fragment, then that the lower-cased
scheme is `https`, then that the netloc carries no `@` (all three are
the spec's `MalformedURLError`); split the netloc at `:` into server and
integer port (default 443 when no colon; a netloc with several colons or
a non-integer port is a `ValueError`); build the connector from
`'%s:%s' % (server, port)` and return the `Path` `path + '?' + query`
bound to a fresh (not yet opened) connection. This is the body run on
the parse result; `load_url` itself parses and delegates here. -/
def load_url_of_parts (r : UrlParts) : Except FsError PathV :=
  if r.params ≠ "" ∨ r.fragment ≠ "" then .error .malformedUrl
  else if pyLower r.scheme ≠ "https" then .error .malformedUrl
  else if r.netloc.data.contains '@' then .error .malformedUrl
  else
    match
      (if r.netloc.data.contains ':' then
        match splitAll ':' r.netloc.data with
        | [sv, pt] =>
          (match pyInt ⟨pt⟩ with
           | .ok n => Except.ok (String.mk sv, n)
           | .error e => Except.error e)
        | _ => Except.error FsError.valueError
      else Except.ok (r.netloc, DEFAULT_HTTPS_PORT)) with
    | .error e => .error e
    | .ok sp =>
      match mkConnector (sp.1 ++ ":" ++ toString sp.2) with
      | .error e => .error e
      | .ok cn => .ok ⟨r.path ++ "?" ++ r.query, ⟨cn, false⟩⟩

/-- Model of `HTTPSConnector.load_url`: parse the effective URL and run the
checks and construction of `load_url_of_parts` on the result. -/
def load_url (url : String) : Except FsError PathV :=
  match urlparse (effectiveUrl url) with
  | .error e => .error e
  | .ok r => load_url_of_parts r

/-! ## Helper lemmas -/

/-- On the upper-case range, `pyLowerChar` adds 32 to the code point. -/
theorem pyLowerChar_toNat (c : Char) (h : 65 ≤ c.toNat ∧ c.toNat ≤ 90) :
    (pyLowerChar c).toNat = c.toNat + 32 := by
  unfold pyLowerChar
  rw [dif_pos h]
  rfl

/-- Lowering via `pyLowerChar` fixes anything outside the upper-case range. -/
theorem pyLowerChar_of_not_upper (c : Char) (h : ¬(65 ≤ c.toNat ∧ c.toNat ≤ 90)) :
    pyLowerChar c = c := by
  unfold pyLowerChar
  rw [dif_neg h]

/-- ASCII lower-casing is idempotent. -/
theorem pyLowerChar_idem (c : Char) : pyLowerChar (pyLowerChar c) = pyLowerChar c := by
  have key : ¬(65 ≤ (pyLowerChar c).toNat ∧ (pyLowerChar c).toNat ≤ 90) := by
    by_cases h : 65 ≤ c.toNat ∧ c.toNat ≤ 90
    · have ht := pyLowerChar_toNat c h
      omega
    · rw [pyLowerChar_of_not_upper c h]
      exact h
  exact pyLowerChar_of_not_upper _ key

/-- Lower-casing a lower-cased character list changes nothing. -/
theorem map_pyLowerChar_idem (l : List Char) :
    (l.map pyLowerChar).map pyLowerChar = l.map pyLowerChar := by
  induction l with
  | nil => rfl
  | cons c cs ih => simp [pyLowerChar_idem, ih]

/-- The scheme produced by `splitScheme` is already lower-cased. -/
theorem splitScheme_lower (url : List Char) :
    (splitScheme url).1.map pyLowerChar = (splitScheme url).1 := by
  unfold splitScheme
  rcases hs : splitFirst (fun c => c = ':') url with _ | ⟨_ | ⟨x, xs⟩, a⟩
  · rfl
  · rfl
  · split
    · split
      · exact map_pyLowerChar_idem _
      · rfl
    · rename_i hcontra
      exact absurd rfl (hcontra x xs a)

/-- Lemma: `urlsplit` returns exactly the scheme extracted by `splitScheme`. -/
theorem urlsplitChars_scheme (u : List Char) (s : SplitRec) (h : urlsplitChars u = .ok s) :
    s.scheme = (splitScheme u).1 := by
  unfold urlsplitChars at h
  cases hn : splitNetloc (splitScheme u).2 with
  | error e => rw [hn] at h; exact absurd h (by simp)
  | ok nr => rw [hn] at h; rw [← Except.ok.inj h]

/-- The scheme component of a successful `urlparse` is already
lower-cased, so re-lowering it (as `load_url` does) changes nothing. -/
theorem urlparse_scheme_lower (u : String) (r : UrlParts) (h : urlparse u = .ok r) :
    pyLower r.scheme = r.scheme := by
  unfold urlparse at h
  cases hs : urlsplitChars u.data with
  | error e => rw [hs] at h; exact absurd h (by simp)
  | ok s =>
    rw [hs] at h
    have h2 := Except.ok.inj h
    have h3 := urlsplitChars_scheme u.data s hs
    rw [← h2]
    show (String.mk (s.scheme.map pyLowerChar)) = String.mk s.scheme
    rw [h3, splitScheme_lower]

/-! ## The claims -/

/-- The host/port/path instance exhibiting the upload divergence. -/
def connC1 : Conn := ⟨⟨"example.com", 443⟩, true⟩

/-- A network oracle answering success (200) exactly to a `PUT` on the
full built URL `https://example.com/f.txt`, and 404 to everything else —
in particular to a `PUT` on the bare path `/f.txt`. -/
def netC1 : Net := fun m u =>
  if m = Method.put ∧ u = "https://example.com/f.txt" then ⟨200, []⟩ else ⟨404, []⟩

/-- A local file system holding one file `local.bin`. -/
def lfsC1 : LocalFs := fun p => if p = "local.bin" then some [1, 2, 3] else none

/-- Claim C1: The write-back routine `_upload` hands `remote_path` itself to
`requests.put` — it never calls `_get_url` — so the `PUT` targets the bare
remote path, not the URL built from the connector's host and port. At
host `example.com`, port 443, remote path `/f.txt`: the request target is
`/f.txt` although the built URL is `https://example.com/f.txt`, and the
upload fails with the remote-operation error even against a server that
answers success on the built URL. -/
theorem C1_upload_targets_raw_path :
    uploadPutTarget connC1 "/f.txt" = "/f.txt" ∧
    get_url connC1.connector "/f.txt" = "https://example.com/f.txt" ∧
    uploadPutTarget connC1 "/f.txt" ≠ get_url connC1.connector "/f.txt" ∧
    upload netC1 lfsC1 connC1 "local.bin" "/f.txt" = .error (.remoteOperation 404) ∧
    responseOk (netC1 Method.put (get_url connC1.connector "/f.txt")) = true := by
  refine ⟨rfl, rfl, ?_, rfl, rfl⟩
  decide

/-- Claim C3: For every host `H`, port `P` and path `p`, the connection's
URL builder returns `https://H + p` when `P` is the default port 443 and
`https://H:P + p` otherwise: the `:443` suffix is elided exactly at the
default port. -/
theorem C3_get_url_port_elision (H : String) (P : Int) (p : String) :
    (P = 443 → get_url ⟨H, P⟩ p = "https://" ++ H ++ p) ∧
    (P ≠ 443 → get_url ⟨H, P⟩ p = "https://" ++ H ++ ":" ++ toString P ++ p) := by
  constructor
  · intro h
    subst h
    rfl
  · intro h
    simp [get_url, DEFAULT_HTTPS_PORT, h]

/-- Witness for C3 at host `h`, path `/x`, ports 443 and 8080. -/
theorem C3_witness :
    get_url ⟨"h", 443⟩ "/x" = "https://h/x" ∧
    get_url ⟨"h", 8080⟩ "/x" = "https://h:8080/x" :=
  ⟨(C3_get_url_port_elision "h" 443 "/x").1 rfl,
   (C3_get_url_port_elision "h" 8080 "/x").2 (by decide)⟩

/-- Claim C5: `join` of zero segments is the empty `Path` bound to the
connection; for a non-empty segment list it strips each segment's
leading/trailing slash characters individually and joins them with `/`,
prepending one empty segment exactly when the first segment started with
`/`; in particular `join("/a", "b/", "/c")` is `/a/b/c`. -/
theorem C5_join_strips_and_joins (conn : Conn) (e : String) (es : List String) :
    join conn [] = ⟨"", conn⟩ ∧
    (join conn (e :: es)).conn = conn ∧
    (join conn (e :: es)).pstr =
      ⟨joinWithSlash (((if e.data.head? = some '/' then [""] else []) ++
        (e :: es).map stripSlashes).map String.data)⟩ ∧
    join conn ["/a", "b/", "/c"] = ⟨"/a/b/c", conn⟩ := by
  refine ⟨rfl, rfl, ?_, rfl⟩
  obtain ⟨d⟩ := e
  cases d with
  | nil => rfl
  | cons x xs =>
    by_cases hx : x = '/'
    · subst hx
      simp [join]
    · simp [join, hx]

/-- Claim C6: `close` is a total function (it never raises): it always
leaves `is_open` false, emits exactly the non-fatal double-close warning
when the connection was already closed, and warns not at all otherwise. -/
theorem C6_close_never_raises (conn : Conn) :
    (close conn).1.isOpen = false ∧
    (conn.isOpen = false → (close conn).2 = ["Double-closing HTTPS connection."]) ∧
    (conn.isOpen = true → (close conn).2 = []) := by
  refine ⟨rfl, ?_, ?_⟩ <;> intro h <;> simp [close, h]

/-- Witness for C6 on an already-closed connection. -/
theorem C6_witness :
    (close ⟨⟨"h", 443⟩, false⟩).1.isOpen = false ∧
    (close ⟨⟨"h", 443⟩, false⟩).2 = ["Double-closing HTTPS connection."] :=
  ⟨(C6_close_never_raises ⟨⟨"h", 443⟩, false⟩).1,
   (C6_close_never_raises ⟨⟨"h", 443⟩, false⟩).2.1 rfl⟩

/-- Claim C7: On every connection and path, `list`, `size`,
`modified_time`, `make_dir` and `rename` fail with the
unsupported-operation error unconditionally, and `is_dir` is false
unconditionally. -/
theorem C7_unsupported_operations (conn : Conn) (p pat nn : String) :
    list conn p pat = .error .operationNotSupported ∧
    size conn p = .error .operationNotSupported ∧
    modified_time conn p = .error .operationNotSupported ∧
    make_dir conn p = .error .operationNotSupported ∧
    rename conn p nn = .error .operationNotSupported ∧
    is_dir conn p = false :=
  ⟨rfl, rfl, rfl, rfl, rfl, rfl⟩

/-- A network oracle answering 200 with body `[7]` to every request. -/
def netOk : Net := fun _ _ => ⟨200, [7]⟩

/-- An open connection to `example.com:443`. -/
def connOpen : Conn := ⟨⟨"example.com", 443⟩, true⟩

/-- A closed connection to `example.com:443`. -/
def connClosed : Conn := ⟨⟨"example.com", 443⟩, false⟩

/-- An empty local file system. -/
def lfsEmpty : LocalFs := fun _ => none

/-- Claim C2: Whenever `open_file` returns a handle, the handle carries the
lower-cased mode and the original path; a download populated the temp
file iff the lower-cased mode is not exactly `w` or `wb`; and the upload
write-back is attached iff the lower-cased mode is not `r` or `rb`. -/
theorem C2_open_file_download_writeback (net : Net) (conn : Conn) (p m : String)
    (pf : ProxyFileSpec) (h : open_file net conn p m = .ok pf) :
    pf.mode = pyLower m ∧
    pf.remotePath = p ∧
    (pf.tempContent.isSome = true ↔ ¬(pyLower m = "w" ∨ pyLower m = "wb")) ∧
    (pf.hasWriteback = true ↔ ¬(pyLower m = "r" ∨ pyLower m = "rb")) := by
  unfold open_file at h
  by_cases ho : conn.isOpen = true
  · rw [if_pos ho] at h
    cases hn : name conn p with
    | error e => rw [hn] at h; exact absurd h (by simp)
    | ok th =>
      rw [hn] at h
      by_cases hw : pyLower m = "w" ∨ pyLower m = "wb"
      · rw [if_pos hw] at h
        rw [← Except.ok.inj h]
        refine ⟨rfl, rfl, ?_, ?_⟩
        · simp [hw]
        · by_cases hr : pyLower m = "r" ∨ pyLower m = "rb"
          · rcases hw with hw | hw <;> rcases hr with hr | hr <;> rw [hw] at hr <;>
              exact absurd hr (by decide)
          · simp [hr]
      · rw [if_neg hw] at h
        cases hd : download net conn p with
        | error e => rw [hd] at h; exact absurd h (by simp)
        | ok body =>
          rw [hd] at h
          rw [← Except.ok.inj h]
          refine ⟨rfl, rfl, ?_, ?_⟩
          · simp [hw]
          · by_cases hr : pyLower m = "r" ∨ pyLower m = "rb"
            · simp [hr]
            · simp [hr]
  · rw [if_neg ho] at h
    exact absurd h (by simp)

/-- Witness for C2: opening `/f` in mode `RB` on an open connection and
an all-success network downloads the body and attaches no write-back. -/
theorem C2_witness :
    open_file netOk connOpen "/f" "RB" = .ok ⟨"/f", "rb", some [7], false⟩ ∧
    ((ProxyFileSpec.mk "/f" "rb" (some [7]) false).tempContent.isSome = true ↔
      ¬(pyLower "RB" = "w" ∨ pyLower "RB" = "wb")) ∧
    ((ProxyFileSpec.mk "/f" "rb" (some [7]) false).hasWriteback = true ↔
      ¬(pyLower "RB" = "r" ∨ pyLower "RB" = "rb")) :=
  ⟨rfl,
   (C2_open_file_download_writeback netOk connOpen "/f" "RB" ⟨"/f", "rb", some [7], false⟩ rfl).2.2.1,
   (C2_open_file_download_writeback netOk connOpen "/f" "RB" ⟨"/f", "rb", some [7], false⟩ rfl).2.2.2⟩

/-- Claim C4: Whenever the URL `load_url` parses (the input, `https://`
prefixed when it has no `://` separator) yields a present non-`https`
scheme, or a params segment, or a fragment, or an authority with embedded
user-info (`@` in the netloc), `load_url` fails with the malformed-URL
error instead of producing a `Path`. -/
theorem C4_load_url_rejects (url : String) (r : UrlParts)
    (hp : urlparse (effectiveUrl url) = .ok r)
    (hbad : (r.scheme ≠ "" ∧ r.scheme ≠ "https") ∨ r.params ≠ "" ∨ r.fragment ≠ "" ∨
      r.netloc.data.contains '@' = true) :
    load_url url = .error .malformedUrl := by
  unfold load_url
  rw [hp]
  show load_url_of_parts r = Except.error FsError.malformedUrl
  unfold load_url_of_parts
  by_cases h1 : r.params ≠ "" ∨ r.fragment ≠ ""
  · rw [if_pos h1]
  · rw [if_neg h1]
    by_cases h2 : pyLower r.scheme ≠ "https"
    · rw [if_pos h2]
    · rw [if_neg h2]
      by_cases h3 : r.netloc.data.contains '@' = true
      · rw [if_pos h3]
      · rw [if_neg h3]
        exfalso
        push_neg at h1 h2
        have hs : r.scheme = "https" := by
          have hl := urlparse_scheme_lower _ _ hp
          rw [hl] at h2
          exact h2
        rcases hbad with ⟨_, hne⟩ | hb | hb | hb
        · exact hne hs
        · exact hb h1.1
        · exact hb h1.2
        · exact h3 hb

/-- Witness for C4: `ftp://x` has scheme `ftp`, and loading it fails
with the malformed-URL error. -/
theorem C4_witness : load_url "ftp://x" = .error .malformedUrl :=
  C4_load_url_rejects "ftp://x" ⟨"ftp", "x", "", "", "", ""⟩ rfl
    (Or.inl ⟨by decide, by decide⟩)

/-- The claim's reading of `name`: strip only the query string (from the
first `?` on) and take the final path segment. Stated from the spec's
words, for comparison with the source-derived `name`. -/
def nameStripQueryOnly (path : String) : String :=
  posixBasename ⟨(splitQuery path.data).1⟩

/-- The connection the C8 instances run on. -/
def connC8 : Conn := ⟨⟨"h", 443⟩, true⟩

/-- Claim C8, counterexample: `name` does not merely strip the query
string: at `/a#f` (no query present) the source's `urlparse` also strips
the fragment, so `name` returns `a`, while the final segment of the
query-stripped path is `a#f`. -/
theorem C8_counterexample :
    name connC8 "/a#f" = Except.ok "a" ∧
    nameStripQueryOnly "/a#f" = "a#f" ∧
    name connC8 "/a#f" ≠ Except.ok (nameStripQueryOnly "/a#f") := by
  refine ⟨rfl, rfl, ?_⟩
  intro h
  have h2 : ("a" : String) = "a#f" := Except.ok.inj h
  exact absurd h2 (by decide)

/-- Claim C8, amended: `name` and `dir` strip the query string, the
fragment and the parameter segment — precisely what `urlparse` excludes
from the path component — then return the final segment
(resp. the parent, bound to the same connection, or `none` exactly when
the parent equals the extracted path): `name("/a/b/c?q=1") = c`,
`dir("/a/b/c?q=1") = /a/b`, `dir("/") = none`. -/
theorem C8_amended_name_dir (conn : Conn) (p : String) (r : UrlParts)
    (hp : urlparse p = .ok r) :
    name conn p = .ok (posixBasename r.path) ∧
    (dir conn p = .ok none ↔ posixDirname r.path = r.path) ∧
    (posixDirname r.path ≠ r.path → dir conn p = .ok (some ⟨posixDirname r.path, conn⟩)) ∧
    name conn "/a/b/c?q=1" = .ok "c" ∧
    dir conn "/a/b/c?q=1" = .ok (some ⟨"/a/b", conn⟩) ∧
    dir conn "/" = .ok none := by
  refine ⟨?_, ?_, ?_, rfl, rfl, rfl⟩
  · unfold name
    rw [hp]
  · unfold dir
    rw [hp]
    show dir_of_path conn r.path = Except.ok none ↔ posixDirname r.path = r.path
    unfold dir_of_path
    by_cases hd : posixDirname r.path = r.path
    · simp [hd]
    · simp [hd]
  · intro hd
    unfold dir
    rw [hp]
    show dir_of_path conn r.path = Except.ok (some ⟨posixDirname r.path, conn⟩)
    unfold dir_of_path
    rw [if_neg hd]

/-- Witness for C8 (amended) at `/p/q` and `/`. -/
theorem C8_witness :
    name connC8 "/p/q" = Except.ok "q" ∧ dir connC8 "/" = Except.ok none :=
  ⟨(C8_amended_name_dir connC8 "/p/q" ⟨"", "", "/p/q", "", "", ""⟩ rfl).1,
   (C8_amended_name_dir connC8 "/" ⟨"", "", "/", "", "", ""⟩ rfl).2.2.2.2.2⟩

/-- Claim C9: Whenever `load_url` succeeds, the resulting `Path` string is
the parsed path concatenated with `?` and the parsed query — with the
`?` present even for an empty query, so a URL without a query yields a
`Path` string ending in `?`. -/
theorem C9_load_url_trailing_query (url : String) (r : UrlParts) (p : PathV)
    (hp : urlparse (effectiveUrl url) = .ok r)
    (h : load_url url = .ok p) :
    p.pstr = r.path ++ "?" ++ r.query ∧ (r.query = "" → ∃ s, p.pstr = s ++ "?") := by
  have hmain : p.pstr = r.path ++ "?" ++ r.query := by
    unfold load_url at h
    rw [hp] at h
    have h' : load_url_of_parts r = Except.ok p := h
    unfold load_url_of_parts at h'
    by_cases h1 : r.params ≠ "" ∨ r.fragment ≠ ""
    · rw [if_pos h1] at h'
      exact absurd h' (by simp)
    · rw [if_neg h1] at h'
      by_cases h2 : pyLower r.scheme ≠ "https"
      · rw [if_pos h2] at h'
        exact absurd h' (by simp)
      · rw [if_neg h2] at h'
        by_cases h3 : r.netloc.data.contains '@' = true
        · rw [if_pos h3] at h'
          exact absurd h' (by simp)
        · rw [if_neg h3] at h'
          split at h'
          · exact absurd h' (by simp)
          · split at h'
            · exact absurd h' (by simp)
            · rw [← Except.ok.inj h']
  refine ⟨hmain, fun hq => ⟨r.path, ?_⟩⟩
  rw [hmain, hq, String.append_empty]

/-- Witness for C9: `https://example.com/a` carries no query and its
loaded `Path` string `/a?` ends in `?`. -/
theorem C9_witness :
    load_url "https://example.com/a" =
      .ok ⟨"/a?", ⟨⟨"example.com", 443⟩, false⟩⟩ ∧
    ∃ s, (PathV.mk "/a?" ⟨⟨"example.com", 443⟩, false⟩).pstr = s ++ "?" :=
  ⟨rfl,
   (C9_load_url_trailing_query "https://example.com/a"
      ⟨"https", "example.com", "/a", "", "", ""⟩
      ⟨"/a?", ⟨⟨"example.com", 443⟩, false⟩⟩ rfl rfl).2 rfl⟩

/-- Claim C10: `is_file` asserts no `is_open` precondition: on any
connection — open or closed — it issues the `GET` and returns whether
the response status is a success, while `remove`, `open_file`, the
download routine and the upload routine all fail with the precondition
violation on a closed connection. -/
theorem C10_is_file_needs_no_open (net : Net) (lfs : LocalFs) (conn : Conn)
    (p lp m : String) (h : conn.isOpen = false) :
    is_file net conn p = .ok (responseOk (net Method.get (get_url conn.connector p))) ∧
    remove net conn p = .error .assertionFailed ∧
    open_file net conn p m = .error .assertionFailed ∧
    download net conn p = .error .assertionFailed ∧
    upload net lfs conn lp p = .error .assertionFailed := by
  refine ⟨rfl, ?_, ?_, ?_, ?_⟩ <;> simp [remove, open_file, download, upload, h]

/-- Witness for C10 on a closed connection to `example.com`. -/
theorem C10_witness :
    is_file netOk connClosed "/x" =
      .ok (responseOk (netOk Method.get (get_url connClosed.connector "/x"))) ∧
    remove netOk connClosed "/x" = .error .assertionFailed ∧
    open_file netOk connClosed "/x" "r" = .error .assertionFailed ∧
    download netOk connClosed "/x" = .error .assertionFailed ∧
    upload netOk lfsEmpty connClosed "/l" "/x" = .error .assertionFailed :=
  C10_is_file_needs_no_open netOk lfsEmpty connClosed "/x" "/l" "r" rfl

end AttilaHttps
